import Mathlib

/-!
# Verification of the voltha `main.py` lifecycle supervisor

A shallow embedding of `src/voltha/main.py` (the VOLTHA main entry point):
configuration resolution (`defs` / `parse_args` / `load_config`), the startup
and shutdown of the supervised subsystems (`Main.startup_components`,
`Main.shutdown_components`), the heartbeat timer (`Main.start_heartbeat`),
and the overall phase ordering of `Main.__init__` / `Main.start`.

External collaborators (the Coordinator, gRPC server, REST service, the host
identity helpers, the filesystem, the clock) enter as parameters; exceptions
raised by Python code are modelled with `Except` / `Option`; the order in
which side-effecting calls are made and awaited is modelled as an event trace
(a `List Event`), sequentially: an event earlier in the list is issued and —
for the `yield`ed deferreds of `shutdown_components` — awaited to completion
before any later event.
-/

namespace Voltha

/-- The subsystems created by `Main.startup_components`, in the declaration
order of the source: `self.coordinator = Coordinator(...)`, then
`init_rest_service(...)`, then `self.grpc_server = VolthaGrpcServer().run()`. -/
inductive Component
  | coordinator
  | restService
  | grpcServer
deriving DecidableEq, Fintype, Repr

/-- Declaration order of the components in `startup_components`. -/
def componentOrder : List Component :=
  [.coordinator, .restService, .grpcServer]

/-- Observable events of a run of `Main`, in the order they are issued. -/
inductive Event
  | logInfo (msg : String)
  | parseArgsEv
  | loadConfigEv
  | setupLoggingEv
  | printBannerEv
  | armHeartbeatEv
  | startComp (c : Component)
  | shutdownComp (c : Component)
  | runReactorEv
deriving DecidableEq, Repr

/-- The component handles held by a `Main` instance: `self.coordinator` and
`self.grpc_server`, each `None` until (and unless) assigned in
`startup_components`.  The REST service keeps no handle in the source. -/
structure MainState where
  coordinator : Option Unit
  grpc_server : Option Unit
deriving DecidableEq, Repr

/-- The state set up at the top of `Main.__init__`:
`self.coordinator = None; self.grpc_server = None`. -/
def initialState : MainState := ⟨none, none⟩

/-- Embeds `Main.startup_components`.  `ok c` says whether constructing and
starting component `c` succeeds; a `False` models the Python call raising, in
which case the exception propagates (there is no `try` in the source) and the
corresponding assignment to `self.coordinator` / `self.grpc_server` never
happens.  Returns the trace of events issued (log lines and `start`
invocations, including the invocation that failed) together with either the
failing component or the updated state. -/
def startup_components (ok : Component → Bool) (s : MainState) :
    List Event × Except Component MainState :=
  let tr := [Event.logInfo "starting-internal-components"]
  -- self.coordinator = Coordinator(...)
  let tr := tr ++ [Event.startComp .coordinator]
  if ok .coordinator then
    let s := { s with coordinator := some () }
    -- init_rest_service(self.args.rest_port)
    let tr := tr ++ [Event.startComp .restService]
    if ok .restService then
      -- self.grpc_server = VolthaGrpcServer().run()
      let tr := tr ++ [Event.startComp .grpcServer]
      if ok .grpcServer then
        let s := { s with grpc_server := some () }
        (tr ++ [Event.logInfo "started-internal-services"], .ok s)
      else
        (tr, .error .grpcServer)
    else
      (tr, .error .restService)
  else
    (tr, .error .coordinator)

/-- Embeds `Main.shutdown_components` (an `inlineCallbacks` generator): log
`exiting-on-keyboard-interrupt`; if `self.coordinator is not None`, `yield
self.coordinator.shutdown()` (awaited); if `self.grpc_server is not None`,
`yield self.grpc_server.shutdown()` (awaited).  Each listed event completes
before the next is issued, and the overall deferred fires only after the whole
trace.  The handles are returned unchanged: the source never assigns to
`self.coordinator` or `self.grpc_server` here. -/
def shutdown_components (s : MainState) : List Event × MainState :=
  ([Event.logInfo "exiting-on-keyboard-interrupt"]
      ++ (if s.coordinator.isSome then [Event.shutdownComp .coordinator] else [])
      ++ (if s.grpc_server.isSome then [Event.shutdownComp .grpcServer] else []),
    s)

/-! ## Configuration resolution: `defs` and `parse_args` -/

/-- A Python value as it can end up in a resolved argument: argparse leaves
non-string defaults untouched, so `rest_port` can be either the `int` 8880
(built-in default) or, before conversion, the raw environment string. -/
inductive PyVal
  | str (s : String)
  | int (n : Int)
deriving DecidableEq, Repr

/-- The environment variables read at module import time when building `defs`
(`os.environ.get(...)`): `none` models an unset variable. -/
structure Env where
  consul : Option String
  instance_id : Option String
  hostname : Option String
  config : Option String
  interface : Option String
  internal_host_address : Option String
  external_host_address : Option String
  fluentd : Option String
  rest_port : Option String
deriving DecidableEq, Repr

/-- Results of the host-identity collaborators invoked while building `defs`
and in the `parse_args` post-processing step: `get_my_primary_interface()`,
`get_my_primary_local_ipv4()` and `get_my_containers_name()`. -/
structure HostInfo where
  primaryInterface : String
  primaryLocalIpv4 : String
  containersName : String
deriving DecidableEq, Repr

/-- Embeds `defs['consul'] = os.environ.get('CONSUL', 'localhost:8500')`. -/
def defs_consul (env : Env) : String := env.consul.getD "localhost:8500"

/-- Embeds `defs['instance_id'] = os.environ.get('INSTANCE_ID',
os.environ.get('HOSTNAME', '1'))`. -/
def defs_instance_id (env : Env) : String :=
  env.instance_id.getD (env.hostname.getD "1")

/-- Embeds `defs['config'] = os.environ.get('CONFIG', './voltha.yml')`. -/
def defs_config (env : Env) : String := env.config.getD "./voltha.yml"

/-- Embeds `defs['interface'] = os.environ.get('INTERFACE',
get_my_primary_interface())`. -/
def defs_interface (env : Env) (host : HostInfo) : String :=
  env.interface.getD host.primaryInterface

/-- Embeds `defs['internal_host_address'] = os.environ.get('INTERNAL_HOST_ADDRESS',
get_my_primary_local_ipv4())`. -/
def defs_internal_host_address (env : Env) (host : HostInfo) : String :=
  env.internal_host_address.getD host.primaryLocalIpv4

/-- Embeds `defs['external_host_address'] = os.environ.get('EXTERNAL_HOST_ADDRESS',
get_my_primary_local_ipv4())`. -/
def defs_external_host_address (env : Env) (host : HostInfo) : String :=
  env.external_host_address.getD host.primaryLocalIpv4

/-- Embeds `defs['fluentd'] = os.environ.get('FLUENTD', None)`. -/
def defs_fluentd (env : Env) : Option String := env.fluentd

/-- Embeds `defs['rest_port'] = os.environ.get('REST_PORT', 8880)`: a raw string
when the environment variable is set, the Python `int` 8880 otherwise. -/
def defs_rest_port (env : Env) : PyVal :=
  match env.rest_port with
  | some s => .str s
  | none => .int 8880

/-- The command line options given to the process.  A `store` option is
`some v` when the flag was supplied with value `v`; `store_true` flags are
`Bool` (their argparse default is `False`); the `count` options `-q`/`-v`
are `none` when never supplied (argparse default `None`, the source later
writes `args.verbose or 0`). -/
structure Cli where
  config : Option String
  consul : Option String
  external_host_address : Option String
  fluentd : Option String
  internal_host_address : Option String
  instance_id : Option String
  interface : Option String
  no_banner : Bool
  no_heartbeat : Bool
  rest_port : Option String
  quiet : Option Nat
  verbose : Option Nat
  instance_id_is_container_name : Bool
deriving DecidableEq, Repr

/-- Decimal value of one digit character. -/
def digitVal? (c : Char) : Option Nat :=
  if '0' ≤ c ∧ c ≤ '9' then some (c.toNat - '0'.toNat) else none

/-- Value of a non-empty run of decimal digits, most significant first;
`none` when a non-digit occurs. -/
def digitsValAux : List Char → Nat → Option Nat
  | [], acc => some acc
  | c :: t, acc =>
    match digitVal? c with
    | some d => digitsValAux t (10 * acc + d)
    | none => none

/-- Python `int(s)` on an optionally signed decimal string, as applied by
argparse's `type=int`: `none` models the `ValueError` (argparse then exits
with a usage error).  Surrounding whitespace, which `int()` would strip, is
not modelled. -/
def pyInt? (s : String) : Option Int :=
  match s.data with
  | [] => none
  | '-' :: t =>
    if t = [] then none else (digitsValAux t 0).map (fun n => -(n : Int))
  | '+' :: t =>
    if t = [] then none else (digitsValAux t 0).map (fun n => (n : Int))
  | l => (digitsValAux l 0).map (fun n => (n : Int))

/-- argparse resolution of the `--rest-port` action, which carries
`type=int`: a value supplied on the command line is converted with `int()`;
when the flag is absent the default is used, and argparse applies the type
conversion to a default that is a string as well (string defaults are parsed
as if they came from the command line), while a non-string default is taken
as is. -/
def argparse_typed_int (cliVal : Option String) (dflt : PyVal) : Option PyVal :=
  match cliVal with
  | some s => (pyInt? s).map PyVal.int
  | none =>
    match dflt with
    | .str s => (pyInt? s).map PyVal.int
    | .int n => some (.int n)

/-- The namespace returned by `parse_args()`, after post-processing. -/
structure Args where
  config : String
  consul : String
  external_host_address : String
  fluentd : Option String
  internal_host_address : String
  instance_id : String
  interface : String
  no_banner : Bool
  no_heartbeat : Bool
  rest_port : PyVal
  quiet : Option Nat
  verbose : Option Nat
  instance_id_is_container_name : Bool
deriving DecidableEq, Repr

/-- Embeds `parse_args()`: each `store` option resolves to the command-line
value when supplied and to its `defs` entry otherwise; `--rest-port` goes
through the `type=int` conversion; after parsing, the post-processing step
replaces `args.instance_id` with `get_my_containers_name()` when
`--instance-id-is-container-name` was given.  `none` models argparse exiting
on an invalid (non-integer) rest port. -/
def parse_args (env : Env) (host : HostInfo) (cli : Cli) : Option Args :=
  match argparse_typed_int cli.rest_port (defs_rest_port env) with
  | none => none
  | some rp =>
    let iid := cli.instance_id.getD (defs_instance_id env)
    some {
      config := cli.config.getD (defs_config env)
      consul := cli.consul.getD (defs_consul env)
      external_host_address :=
        cli.external_host_address.getD (defs_external_host_address env host)
      fluentd :=
        match cli.fluentd with
        | some v => some v
        | none => defs_fluentd env
      internal_host_address :=
        cli.internal_host_address.getD (defs_internal_host_address env host)
      instance_id :=
        if cli.instance_id_is_container_name then host.containersName else iid
      interface := cli.interface.getD (defs_interface env host)
      no_banner := cli.no_banner
      no_heartbeat := cli.no_heartbeat
      rest_port := rp
      quiet := cli.quiet
      verbose := cli.verbose
      instance_id_is_container_name := cli.instance_id_is_container_name
    }

/-! ## `load_config`: path resolution and fallible loading -/

/-- Python `s.startswith(pre)`: prefix test on the character sequence. -/
def pyStartswith (s pre : String) : Bool := pre.data.isPrefixOf s.data

/-- Python `s.endswith(suffix)`: suffix test on the character sequence. -/
def pyEndswith (s suffix : String) : Bool := suffix.data.isSuffixOf s.data

/-- POSIX `os.path.join(a, b)` for the two-argument calls in the source: an
absolute `b` discards `a`; otherwise `b` is appended to `a` with a separating
slash unless `a` is empty or already ends in one. -/
def joinPath (a b : String) : String :=
  if pyStartswith b "/" then b
  else if a = "" then b
  else if pyEndswith a "/" then a ++ b
  else a ++ "/" ++ b

/-- Python `p.split('/')` on the character sequence: the path's components,
empty components included. -/
def splitSlash : List Char → List (List Char)
  | [] => [[]]
  | c :: t =>
    match splitSlash t, c with
    | r :: rs, '/' => [] :: r :: rs
    | r :: rs, c => (c :: r) :: rs
    | [], _ => []

/-- Python `'/'.join(comps)` on character-sequence components. -/
def joinSlash : List (List Char) → List Char
  | [] => []
  | [x] => x
  | x :: xs => x ++ '/' :: joinSlash xs

/-- One step of `os.path.normpath` component processing: drop empty and `.`
components; `..` pops the previous component when the path is absolute (at
the root it is dropped), and in a relative path pops unless there is nothing
to pop or the previous component is itself `..`. -/
def normSegStep (isAbs : Bool) (acc : List (List Char)) (c : List Char) :
    List (List Char) :=
  if c = [] || c = ['.'] then acc
  else if c = ['.', '.'] then
    if isAbs then acc.dropLast
    else
      match acc.getLast? with
      | some l => if l = ['.', '.'] then acc ++ [c] else acc.dropLast
      | none => [c]
  else acc ++ [c]

/-- POSIX `os.path.normpath` (modulo the double-leading-slash special case,
which never arises here): collapse separators, `.` and `..`. -/
def normpath (p : String) : String :=
  let isAbs := pyStartswith p "/"
  let comps := (splitSlash p.data).foldl (normSegStep isAbs) []
  let body := joinSlash comps
  if isAbs then String.mk ('/' :: body)
  else if body = [] then "." else String.mk body

/-- POSIX `os.path.abspath(p)` in a process whose working directory is
`cwd`: `normpath(join(cwd, p))`. -/
def abspath (cwd p : String) : String := normpath (joinPath cwd p)

/-- Embeds the path computation of `load_config`: `mainDir` is
`os.path.dirname(os.path.abspath(__file__))`, the directory holding
`main.py`; if the configured path starts with `'.'` it is joined to
`mainDir`; the result is then passed through `os.path.abspath`, which
resolves any still-relative path against the process working directory. -/
def config_path (mainDir cwd path : String) : String :=
  let p := if pyStartswith path "." then joinPath mainDir path else path
  abspath cwd p

/-- The two ways `load_config` can raise: `open(path)` failing
(`IOError`) and `yaml.load(fd)` failing (a YAML parse error).  Neither is
caught anywhere in the source. -/
inductive ConfigErr
  | openError
  | yamlError
deriving DecidableEq, Repr

/-- A parsed YAML configuration; the supervisor only passes it on, so its
content is opaque here. -/
structure Config where
  loggingSection : Option String
deriving DecidableEq, Repr

/-- Embeds the fallible part of `load_config`: `readFile` models what
`open(path)`/`read` yields for the resolved path (`none`: unreadable),
`parseYaml` models `yaml.load` (`none`: malformed).  An error propagates to
the caller — there is no handler and no fallback to defaults. -/
def load_config (readFile : String → Option String)
    (parseYaml : String → Option Config) (mainDir cwd path : String) :
    Except ConfigErr Config :=
  match readFile (config_path mainDir cwd path) with
  | none => .error .openError
  | some text =>
    match parseYaml text with
    | none => .error .yamlError
    | some cfg => .ok cfg

/-! ## Heartbeat -/

/-- The state captured by `Main.start_heartbeat` when the timer is armed:
`t0 = time.time()` (the start instant) and `t0s = time.ctime(t0)` (the
human-readable start label).  Instants are modelled as integers. -/
structure HeartbeatState where
  t0 : Int
  t0s : String
deriving DecidableEq, Repr

/-- Embeds the capture at the top of `Main.start_heartbeat`: both fields are
computed once, when the timer is armed, from the clock (`now`) and the
`time.ctime` rendering. -/
def start_heartbeat (now : Int) (ctime : Int → String) : HeartbeatState :=
  ⟨now, ctime now⟩

/-- The period passed to `LoopingCall.start` in `Main.start_heartbeat`:
`lc.start(10)`. -/
def heartbeat_period : Int := 10

/-- One emitted heartbeat record: the keyword arguments of
`self.log.debug(status='up', since=t0s, uptime=time.time() - t0)`. -/
structure HeartbeatRecord where
  status : String
  since : String
  uptime : Int
deriving DecidableEq, Repr

/-- Embeds the inner `heartbeat()` closure: at a tick occurring at time
`now` it emits status `"up"`, the captured label, and the uptime recomputed
as `now - t0` from the fixed origin. -/
def heartbeat (st : HeartbeatState) (now : Int) : HeartbeatRecord :=
  ⟨"up", st.t0s, now - st.t0⟩

/-! ## `Main.__init__` and `Main.start`: the phase trace -/

/-- How a run of `Main` can fail before the reactor is entered. -/
inductive InitError
  | configError (e : ConfigErr)
  | startupError (c : Component)
deriving DecidableEq, Repr

/-- Embeds `Main.__init__`: `parse_args()`, then `load_config(args)` (a
failure propagates out of the constructor at once), then
`setup_logging(...)`, the handle initialisation, the optional banner, the
optional heartbeat arming (`if not args.no_heartbeat: self.start_heartbeat()`)
and finally `startup_components()`.  `cfg` is the outcome of the config
load and `ok` the outcome oracle for the component starts.  Returns the
event trace together with the failure or the constructed state. -/
def main_init (no_banner no_heartbeat : Bool) (cfg : Except ConfigErr Config)
    (ok : Component → Bool) : List Event × Except InitError MainState :=
  let tr := [Event.parseArgsEv, Event.loadConfigEv]
  match cfg with
  | .error e => (tr, .error (.configError e))
  | .ok _ =>
    let tr := tr ++ [Event.setupLoggingEv]
    let tr := tr ++ (if no_banner then [] else [Event.printBannerEv])
    let tr := tr ++ (if no_heartbeat then [] else [Event.armHeartbeatEv])
    let (tr2, r) := startup_components ok initialState
    match r with
    | .ok s => (tr ++ tr2, .ok s)
    | .error c => (tr ++ tr2, .error (.startupError c))

/-- Embeds `Main().start()` as invoked by the `__main__` guard: the
constructor runs as in `main_init`; only when it succeeds does
`start_reactor` enter the event loop (`reactor.run()`), which blocks until a
termination signal. -/
def main_run (no_banner no_heartbeat : Bool) (cfg : Except ConfigErr Config)
    (ok : Component → Bool) : List Event × Except InitError MainState :=
  let (tr, r) := main_init no_banner no_heartbeat cfg ok
  match r with
  | .ok s => (tr ++ [Event.runReactorEv], .ok s)
  | .error e => (tr, .error e)

/-- Position of a component in the declaration order of
`startup_components`. -/
def compIdx : Component → Nat
  | .coordinator => 0
  | .restService => 1
  | .grpcServer => 2

/-! ## Theorems -/

/-- C1 (counterexample): after a fully successful startup, the code shuts the
subsystems down in *declaration* order — `self.coordinator.shutdown()` is
yielded before `self.grpc_server.shutdown()` — not in the reverse order
(gRPC server before Coordinator) asserted by the claim. -/
theorem shutdown_not_reverse_order_cex :
    (startup_components (fun _ => true) initialState).2 =
      .ok ⟨some (), some ()⟩ ∧
    (shutdown_components ⟨some (), some ()⟩).1 =
      [Event.logInfo "exiting-on-keyboard-interrupt",
        Event.shutdownComp .coordinator, Event.shutdownComp .grpcServer] ∧
    ¬ ((shutdown_components ⟨some (), some ()⟩).1.indexOf
          (Event.shutdownComp .grpcServer) <
        (shutdown_components ⟨some (), some ()⟩).1.indexOf
          (Event.shutdownComp .coordinator)) := by
  refine ⟨rfl, rfl, by decide⟩

/-- C1 (amended): after a successful startup, one invocation of
`shutdown_components` calls `shutdown()` exactly once on the coordinator and
exactly once on the gRPC server, awaiting each in turn, in *declaration*
order (Coordinator strictly before gRPC server); the REST service is never
shut down; and the trace — hence the awaited sequence — is complete before
the call's deferred fires. -/
theorem shutdown_after_successful_startup (ok : Component → Bool)
    (s : MainState)
    (h : (startup_components ok initialState).2 = .ok s) :
    (shutdown_components s).1.count (Event.shutdownComp .coordinator) = 1 ∧
    (shutdown_components s).1.count (Event.shutdownComp .grpcServer) = 1 ∧
    (shutdown_components s).1.count (Event.shutdownComp .restService) = 0 ∧
    (shutdown_components s).1.indexOf (Event.shutdownComp .coordinator) <
      (shutdown_components s).1.indexOf (Event.shutdownComp .grpcServer) := by
  cases hc : ok Component.coordinator <;>
    cases hr : ok Component.restService <;>
    cases hg : ok Component.grpcServer <;>
    simp_all [startup_components, initialState]
  all_goals subst h
  all_goals decide

/-- C1 (witness): the amended theorem applied to the all-successful run. -/
theorem shutdown_after_successful_startup_witness :
    (shutdown_components ⟨some (), some ()⟩).1.count
        (Event.shutdownComp .coordinator) = 1 ∧
    (shutdown_components ⟨some (), some ()⟩).1.count
        (Event.shutdownComp .grpcServer) = 1 ∧
    (shutdown_components ⟨some (), some ()⟩).1.count
        (Event.shutdownComp .restService) = 0 ∧
    (shutdown_components ⟨some (), some ()⟩).1.indexOf
        (Event.shutdownComp .coordinator) <
      (shutdown_components ⟨some (), some ()⟩).1.indexOf
        (Event.shutdownComp .grpcServer) :=
  shutdown_after_successful_startup (fun _ => true) ⟨some (), some ()⟩ rfl

/-- C3 (counterexample): after one complete `shutdown_components` from the
fully started state, the handles are *not* cleared (the source never assigns
`None` to them), and a second invocation yields both `shutdown()` calls
again — the second call is not a no-op. -/
theorem shutdown_twice_not_noop_cex :
    (shutdown_components ⟨some (), some ()⟩).2 = ⟨some (), some ()⟩ ∧
    (shutdown_components
        ((shutdown_components ⟨some (), some ()⟩).2)).1.count
      (Event.shutdownComp .coordinator) = 1 ∧
    ((shutdown_components ⟨some (), some ()⟩).1 ++
        (shutdown_components
          ((shutdown_components ⟨some (), some ()⟩).2)).1).count
      (Event.shutdownComp .coordinator) = 2 := by
  refine ⟨rfl, by decide, by decide⟩

/-- C3 (amended): `shutdown_components` leaves the handles exactly as they
were — nothing is cleared — so invoking it a second time repeats the same
round of `shutdown()` calls: over two invocations from a fully started
state each started subsystem is shut down twice, not once. -/
theorem shutdown_second_call_repeats (s : MainState)
    (hc : s.coordinator.isSome = true) (hg : s.grpc_server.isSome = true) :
    (shutdown_components s).2 = s ∧
    (shutdown_components ((shutdown_components s).2)).1 =
      (shutdown_components s).1 ∧
    ((shutdown_components s).1 ++
        (shutdown_components ((shutdown_components s).2)).1).count
      (Event.shutdownComp .coordinator) = 2 ∧
    ((shutdown_components s).1 ++
        (shutdown_components ((shutdown_components s).2)).1).count
      (Event.shutdownComp .grpcServer) = 2 := by
  obtain ⟨c, g⟩ := s
  cases c <;> cases g <;> simp_all [shutdown_components]

/-- C3 (witness): the amended theorem applied to the fully started state. -/
theorem shutdown_second_call_repeats_witness :
    (shutdown_components ⟨some (), some ()⟩).2 = ⟨some (), some ()⟩ ∧
    (shutdown_components
        ((shutdown_components ⟨some (), some ()⟩).2)).1 =
      (shutdown_components ⟨some (), some ()⟩).1 ∧
    ((shutdown_components ⟨some (), some ()⟩).1 ++
        (shutdown_components
          ((shutdown_components ⟨some (), some ()⟩).2)).1).count
      (Event.shutdownComp .coordinator) = 2 ∧
    ((shutdown_components ⟨some (), some ()⟩).1 ++
        (shutdown_components
          ((shutdown_components ⟨some (), some ()⟩).2)).1).count
      (Event.shutdownComp .grpcServer) = 2 :=
  shutdown_second_call_repeats ⟨some (), some ()⟩ rfl rfl

/-- C9 (confirmed): `shutdown_components` never dereferences a null handle —
a handle that is `None` contributes no `shutdown()` call — and the sequence
still proceeds to the remaining non-null handles. -/
theorem shutdown_skips_null_handles (s : MainState) :
    (s.coordinator = none →
      Event.shutdownComp .coordinator ∉ (shutdown_components s).1) ∧
    (s.grpc_server = none →
      Event.shutdownComp .grpcServer ∉ (shutdown_components s).1) ∧
    (s.coordinator.isSome = true →
      Event.shutdownComp .coordinator ∈ (shutdown_components s).1) ∧
    (s.grpc_server.isSome = true →
      Event.shutdownComp .grpcServer ∈ (shutdown_components s).1) := by
  obtain ⟨c, g⟩ := s
  cases c <;> cases g <;> simp [shutdown_components]

/-- C9 (witness): with the coordinator never started and the gRPC server
started, shutdown skips the coordinator and still shuts the gRPC server
down. -/
theorem shutdown_skips_null_handles_witness :
    (Event.shutdownComp .coordinator ∉
      (shutdown_components ⟨none, some ()⟩).1) ∧
    (Event.shutdownComp .grpcServer ∈
      (shutdown_components ⟨none, some ()⟩).1) :=
  ⟨(shutdown_skips_null_handles ⟨none, some ()⟩).1 rfl,
    (shutdown_skips_null_handles ⟨none, some ()⟩).2.2.2 rfl⟩

/-- No run of `startup_components` ever issues the reactor-entry event:
`reactor.run()` is called only later, from `Main.start`. -/
theorem startup_trace_no_reactor_event (ok : Component → Bool)
    (s : MainState) :
    Event.runReactorEv ∉ (startup_components ok s).1 := by
  cases hc : ok Component.coordinator <;>
    cases hr : ok Component.restService <;>
    cases hg : ok Component.grpcServer <;>
    simp [startup_components, hc, hr, hg]

/-- A failure inside `startup_components` propagates out of `Main.__init__`
unhandled: the run ends in a startup error and the reactor is never
entered. -/
theorem main_run_propagates_startup_error (nb nh : Bool) (cfgv : Config)
    (ok : Component → Bool) (c : Component)
    (h : (startup_components ok initialState).2 = .error c) :
    (main_run nb nh (.ok cfgv) ok).2 = .error (.startupError c) ∧
    Event.runReactorEv ∉ (main_run nb nh (.ok cfgv) ok).1 := by
  have hni := startup_trace_no_reactor_event ok initialState
  rcases he : startup_components ok initialState with ⟨tr2, r⟩
  rw [he] at h hni
  simp only at h hni
  subst h
  constructor
  · simp [main_run, main_init, he]
  · cases nb <;> cases nh <;> simp_all [main_run, main_init, he]

/-- C4 (confirmed): when component `c` is the one whose `start()` fails,
the startup trace consists of the opening log line followed by exactly one
`start` invocation for each component up to and including `c`, in
declaration order; no `shutdown()` is invoked on anything as part of the
failed startup; components after `c` are never started; no `start` is
retried; and in the full run the failure propagates to the process
boundary — the run ends in a startup error and the reactor is never
entered. -/
theorem startup_failure_fail_fast (ok : Component → Bool) (c : Component)
    (h : (startup_components ok initialState).2 = .error c) :
    (startup_components ok initialState).1 =
      Event.logInfo "starting-internal-components" ::
        (componentOrder.take (compIdx c + 1)).map Event.startComp ∧
    (∀ d, Event.shutdownComp d ∉ (startup_components ok initialState).1) ∧
    (∀ d, compIdx c < compIdx d →
      Event.startComp d ∉ (startup_components ok initialState).1) ∧
    (∀ d, (startup_components ok initialState).1.count (Event.startComp d)
      ≤ 1) ∧
    (∀ nb nh cfgv,
      (main_run nb nh (.ok cfgv) ok).2 = .error (.startupError c) ∧
      Event.runReactorEv ∉ (main_run nb nh (.ok cfgv) ok).1) := by
  refine ⟨?_, ?_, ?_, ?_,
    fun nb nh cfgv => main_run_propagates_startup_error nb nh cfgv ok c h⟩ <;>
  · cases hc : ok Component.coordinator <;>
      cases hr : ok Component.restService <;>
      cases hg : ok Component.grpcServer <;>
      simp_all [startup_components, initialState]
    all_goals subst h
    all_goals decide

/-- C4 (witness): the theorem applied to a run where the REST service
initialisation fails after the coordinator started. -/
theorem startup_failure_fail_fast_witness :
    (startup_components (fun c => c == Component.coordinator)
        initialState).1 =
      Event.logInfo "starting-internal-components" ::
        (componentOrder.take (compIdx Component.restService + 1)).map
          Event.startComp ∧
    (Event.shutdownComp .coordinator ∉
      (startup_components (fun c => c == Component.coordinator)
        initialState).1) ∧
    (Event.startComp .grpcServer ∉
      (startup_components (fun c => c == Component.coordinator)
        initialState).1) ∧
    (main_run false false (.ok ⟨none⟩)
        (fun c => c == Component.coordinator)).2 =
      .error (.startupError .restService) := by
  have h := startup_failure_fail_fast
    (fun c => c == Component.coordinator) Component.restService rfl
  exact ⟨h.1, h.2.1 .coordinator, h.2.2.1 .grpcServer (by decide),
    (h.2.2.2.2 false false ⟨none⟩).1⟩

/-- C5 (confirmed): whenever `load_config` fails — the file unreadable or
the YAML unparsable — `Main.__init__` propagates the error at once: the run
fails with that configuration error and no subsystem `start()` is ever
invoked (and the reactor is never entered); there is no fallback to a
default configuration. -/
theorem config_error_aborts_before_any_start (nb nh : Bool) (e : ConfigErr)
    (ok : Component → Bool) :
    (main_run nb nh (.error e) ok).2 = .error (.configError e) ∧
    (∀ c, Event.startComp c ∉ (main_run nb nh (.error e) ok).1) ∧
    Event.runReactorEv ∉ (main_run nb nh (.error e) ok).1 := by
  simp [main_run, main_init]

/-- C5 also holds at the `load_config` level: an unreadable file or a
failing parse produces an error, never a default configuration. -/
theorem load_config_no_fallback (parseYaml : String → Option Config)
    (mainDir cwd path : String) :
    load_config (fun _ => none) parseYaml mainDir cwd path =
      .error .openError ∧
    load_config (fun _ => some "raw") (fun _ => none) mainDir cwd path =
      .error .yamlError := by
  constructor <;> rfl

/-- C6 (confirmed): the heartbeat captures its start instant and start label
exactly once, when armed; the `LoopingCall` period is 10; every tick emits
status `"up"`, the captured label (identical across ticks), and an uptime
recomputed as the tick time minus the captured start instant — so for ticks
at non-decreasing times the emitted uptimes are non-decreasing. -/
theorem heartbeat_contract (t0 n1 n2 : Int) (ctime : Int → String)
    (h : n1 ≤ n2) :
    heartbeat_period = 10 ∧
    (start_heartbeat t0 ctime).t0 = t0 ∧
    (start_heartbeat t0 ctime).t0s = ctime t0 ∧
    (heartbeat (start_heartbeat t0 ctime) n1).status = "up" ∧
    (heartbeat (start_heartbeat t0 ctime) n1).since = ctime t0 ∧
    (heartbeat (start_heartbeat t0 ctime) n2).since =
      (heartbeat (start_heartbeat t0 ctime) n1).since ∧
    (heartbeat (start_heartbeat t0 ctime) n1).uptime = n1 - t0 ∧
    (heartbeat (start_heartbeat t0 ctime) n1).uptime ≤
      (heartbeat (start_heartbeat t0 ctime) n2).uptime := by
  refine ⟨rfl, rfl, rfl, rfl, rfl, rfl, rfl, ?_⟩
  simpa [heartbeat, start_heartbeat] using sub_le_sub_right h t0

/-- C6 (witness): three consecutive ideal ticks of the armed timer. -/
theorem heartbeat_contract_witness :
    (heartbeat (start_heartbeat 100 (fun _ => "T")) 110).uptime = 10 ∧
    (heartbeat (start_heartbeat 100 (fun _ => "T")) 110).status = "up" ∧
    (heartbeat (start_heartbeat 100 (fun _ => "T")) 110).since = "T" ∧
    (heartbeat (start_heartbeat 100 (fun _ => "T")) 110).uptime ≤
      (heartbeat (start_heartbeat 100 (fun _ => "T")) 120).uptime ∧
    (heartbeat (start_heartbeat 100 (fun _ => "T")) 120).uptime ≤
      (heartbeat (start_heartbeat 100 (fun _ => "T")) 130).uptime := by
  have h1 := heartbeat_contract 100 110 120 (fun _ => "T") (by norm_num)
  have h2 := heartbeat_contract 100 120 130 (fun _ => "T") (by norm_num)
  exact ⟨by simpa using h1.2.2.2.2.2.2.1, h1.2.2.2.1, h1.2.2.2.2.1,
    h1.2.2.2.2.2.2.2, h2.2.2.2.2.2.2.2⟩

/-- C7 (counterexample): in a successful full run with the heartbeat
enabled, the heartbeat is armed *before* any subsystem starts —
`Main.__init__` calls `self.start_heartbeat()` before
`self.startup_components()` — contradicting the claimed order in which the
heartbeat is armed only after all subsystems have started. -/
theorem heartbeat_armed_before_components_cex :
    (main_run false false (.ok ⟨none⟩) (fun _ => true)).1.indexOf
        Event.armHeartbeatEv <
      (main_run false false (.ok ⟨none⟩) (fun _ => true)).1.indexOf
        (Event.startComp .coordinator) ∧
    ¬ ((main_run false false (.ok ⟨none⟩) (fun _ => true)).1.indexOf
          (Event.startComp .grpcServer) <
        (main_run false false (.ok ⟨none⟩) (fun _ => true)).1.indexOf
          Event.armHeartbeatEv) := by
  decide

/-- C7 (amended): the phases of a successful run (banner and heartbeat
enabled) occur in the order: configuration resolution (argument parsing,
config load, logging setup), then banner, then heartbeat arming, then the
subsystem starts in declared order, and the event loop is entered last;
the heartbeat is armed *before* the subsystems start, not after. -/
theorem main_phase_order (cfgv : Config) :
    (main_run false false (.ok cfgv) (fun _ => true)).1 =
      [Event.parseArgsEv, Event.loadConfigEv, Event.setupLoggingEv,
        Event.printBannerEv, Event.armHeartbeatEv,
        Event.logInfo "starting-internal-components",
        Event.startComp .coordinator, Event.startComp .restService,
        Event.startComp .grpcServer,
        Event.logInfo "started-internal-services", Event.runReactorEv] := by
  simp [main_run, main_init, startup_components, initialState]

/-- The character list underlying the literal `"."`. -/
theorem dot_data : ".".data = ['.'] := rfl

/-- The character list underlying the literal `"/"`. -/
theorem slash_data : "/".data = ['/'] := rfl

/-- A path that starts with `'.'` does not start with `'/'`. -/
theorem startswith_dot_not_slash (s : String)
    (h : pyStartswith s "." = true) : pyStartswith s "/" = false := by
  unfold pyStartswith at *
  rw [dot_data] at h
  rw [slash_data]
  cases hd : s.data with
  | nil => rw [hd] at h; simp [List.isPrefixOf] at h
  | cons c t =>
    rw [hd] at h
    simp [List.isPrefixOf] at h ⊢
    intro hc
    rw [← hc] at h
    exact absurd h (by decide)

/-- A path that starts with `'/'` is nonempty. -/
theorem startswith_slash_ne_empty (s : String)
    (h : pyStartswith s "/" = true) : s ≠ "" := by
  intro he
  subst he
  simp [pyStartswith, slash_data, List.isPrefixOf] at h

/-- Appending preserves a leading `'/'`. -/
theorem startswith_slash_append (a b : String)
    (h : pyStartswith a "/" = true) :
    pyStartswith (a ++ b) "/" = true := by
  unfold pyStartswith at *
  rw [slash_data] at h ⊢
  rw [String.data_append]
  cases hd : a.data with
  | nil => rw [hd] at h; simp [List.isPrefixOf] at h
  | cons c t =>
    rw [hd] at h
    simp [List.isPrefixOf] at h ⊢
    exact h

/-- Lemma: `os.path.join` discards its first argument when the second is
absolute. -/
theorem joinPath_absolute (a b : String) (h : pyStartswith b "/" = true) :
    joinPath a b = b := by
  unfold joinPath
  rw [h]
  simp

/-- C8 (counterexample): a *relative* config path that does not start with
`'.'` — here `conf/voltha.yml` — bypasses the module-directory join in
`load_config` and is resolved by `os.path.abspath` against the process
working directory, so the same path names different files in different
invocation directories. -/
theorem config_path_cwd_dependent_cex :
    config_path "/install/voltha" "/cwd-a" "conf/voltha.yml" =
      "/cwd-a/conf/voltha.yml" ∧
    config_path "/install/voltha" "/cwd-b" "conf/voltha.yml" =
      "/cwd-b/conf/voltha.yml" ∧
    config_path "/install/voltha" "/cwd-a" "conf/voltha.yml" ≠
      config_path "/install/voltha" "/cwd-b" "conf/voltha.yml" := by
  refine ⟨rfl, rfl, by decide⟩

/-- C8 (amended): only config paths that start with `'.'` are resolved
against the directory of `main.py`; for those the result is independent of
the process working directory.  (A relative path not starting with `'.'` is
resolved against the working directory instead, as the counterexample
shows.) -/
theorem config_path_dot_cwd_independent (mainDir path cwd1 cwd2 : String)
    (hdot : pyStartswith path "." = true)
    (habs : pyStartswith mainDir "/" = true) :
    config_path mainDir cwd1 path = config_path mainDir cwd2 path := by
  have hp : pyStartswith path "/" = false :=
    startswith_dot_not_slash path hdot
  have hne : mainDir ≠ "" := startswith_slash_ne_empty mainDir habs
  have hj : pyStartswith (joinPath mainDir path) "/" = true := by
    unfold joinPath
    rw [hp]
    simp only [Bool.false_eq_true, if_false, hne, ite_false]
    cases he : pyEndswith mainDir "/"
    · simp only [Bool.false_eq_true, if_false]
      exact startswith_slash_append (mainDir ++ "/") path
        (startswith_slash_append mainDir "/" habs)
    · simp only [if_true]
      exact startswith_slash_append mainDir path habs
  unfold config_path
  rw [hdot]
  simp only [ite_true]
  unfold abspath
  rw [joinPath_absolute cwd1 _ hj, joinPath_absolute cwd2 _ hj]

/-- C8 (witness): the amended theorem applied to the default
`./voltha.yml` path under an absolute install directory. -/
theorem config_path_dot_cwd_independent_witness :
    config_path "/install/voltha" "/cwd-a" "./voltha.yml" =
      config_path "/install/voltha" "/cwd-b" "./voltha.yml" :=
  config_path_dot_cwd_independent "/install/voltha" "./voltha.yml"
    "/cwd-a" "/cwd-b" (by decide) (by decide)

/-- C2 (confirmed): for every setting with a built-in default, an
environment fallback and a CLI flag, the resolved value comes from the CLI
flag when supplied, else from the environment variable, else from the
built-in default (for `interface` and the host addresses the built-in
default is the host-identity lookup; for `instance_id` the environment
chain is `INSTANCE_ID`, then `HOSTNAME`, then `"1"`); and the
`--instance-id-is-container-name` flag, when set, overrides every other
instance-id source as a post-processing step. -/
theorem parse_args_precedence (env : Env) (host : HostInfo) (cli : Cli)
    (args : Args) (h : parse_args env host cli = some args) :
    (∀ v, cli.consul = some v → args.consul = v) ∧
    (cli.consul = none → ∀ e, env.consul = some e → args.consul = e) ∧
    (cli.consul = none → env.consul = none →
      args.consul = "localhost:8500") ∧
    (∀ v, cli.config = some v → args.config = v) ∧
    (cli.config = none → ∀ e, env.config = some e → args.config = e) ∧
    (cli.config = none → env.config = none →
      args.config = "./voltha.yml") ∧
    (∀ v, cli.interface = some v → args.interface = v) ∧
    (cli.interface = none → ∀ e, env.interface = some e →
      args.interface = e) ∧
    (cli.interface = none → env.interface = none →
      args.interface = host.primaryInterface) ∧
    (∀ v, cli.internal_host_address = some v →
      args.internal_host_address = v) ∧
    (cli.internal_host_address = none →
      ∀ e, env.internal_host_address = some e →
        args.internal_host_address = e) ∧
    (cli.internal_host_address = none →
      env.internal_host_address = none →
        args.internal_host_address = host.primaryLocalIpv4) ∧
    (∀ v, cli.external_host_address = some v →
      args.external_host_address = v) ∧
    (cli.external_host_address = none →
      ∀ e, env.external_host_address = some e →
        args.external_host_address = e) ∧
    (cli.external_host_address = none →
      env.external_host_address = none →
        args.external_host_address = host.primaryLocalIpv4) ∧
    (∀ v, cli.fluentd = some v → args.fluentd = some v) ∧
    (cli.fluentd = none → args.fluentd = env.fluentd) ∧
    (cli.instance_id_is_container_name = true →
      args.instance_id = host.containersName) ∧
    (cli.instance_id_is_container_name = false →
      ∀ v, cli.instance_id = some v → args.instance_id = v) ∧
    (cli.instance_id_is_container_name = false → cli.instance_id = none →
      ∀ e, env.instance_id = some e → args.instance_id = e) ∧
    (cli.instance_id_is_container_name = false → cli.instance_id = none →
      env.instance_id = none → args.instance_id = env.hostname.getD "1") ∧
    (∀ s n, cli.rest_port = some s → pyInt? s = some n →
      args.rest_port = .int n) ∧
    (cli.rest_port = none → ∀ s n, env.rest_port = some s →
      pyInt? s = some n → args.rest_port = .int n) ∧
    (cli.rest_port = none → env.rest_port = none →
      args.rest_port = .int 8880) := by
  rcases hrp : argparse_typed_int cli.rest_port (defs_rest_port env)
    with _ | rp
  · unfold parse_args at h
    rw [hrp] at h
    exact absurd h (by simp)
  · unfold parse_args at h
    rw [hrp] at h
    simp only [Option.some.injEq] at h
    subst h
    refine ⟨fun v hv => by simp [hv, defs_consul],
      fun hc e he => by simp [hc, he, defs_consul],
      fun hc he => by simp [hc, he, defs_consul],
      fun v hv => by simp [hv, defs_config],
      fun hc e he => by simp [hc, he, defs_config],
      fun hc he => by simp [hc, he, defs_config],
      fun v hv => by simp [hv, defs_interface],
      fun hc e he => by simp [hc, he, defs_interface],
      fun hc he => by simp [hc, he, defs_interface],
      fun v hv => by simp [hv, defs_internal_host_address],
      fun hc e he => by simp [hc, he, defs_internal_host_address],
      fun hc he => by simp [hc, he, defs_internal_host_address],
      fun v hv => by simp [hv, defs_external_host_address],
      fun hc e he => by simp [hc, he, defs_external_host_address],
      fun hc he => by simp [hc, he, defs_external_host_address],
      fun v hv => by simp [hv],
      fun hc => by rcases hf : env.fluentd with _ | f <;>
        simp [hc, hf, defs_fluentd],
      fun hf => by simp [hf],
      fun hf v hv => by simp [hf, hv, defs_instance_id],
      fun hf hc e he => by simp [hf, hc, he, defs_instance_id],
      fun hf hc he => by simp [hf, hc, he, defs_instance_id],
      fun s n hs hn => ?_, fun hc s n hs hn => ?_, fun hc he => ?_⟩
    · rw [hs] at hrp
      simp [argparse_typed_int, hn] at hrp
      simp [hrp]
    · rw [hc] at hrp
      simp [argparse_typed_int, defs_rest_port, hs, hn] at hrp
      simp [hrp]
    · rw [hc] at hrp
      simp [argparse_typed_int, defs_rest_port, he] at hrp
      simp [hrp]

/-- Environment for the C2 witness: `INSTANCE_ID`, `HOSTNAME`, `CONFIG`
and `REST_PORT` set, the rest unset. -/
def envW : Env :=
  ⟨none, some "env-id", some "host-9", some "/etc/voltha.yml", none, none,
    none, none, some "7000"⟩

/-- Host identity for the C2 witness. -/
def hostW : HostInfo := ⟨"eth3", "10.0.0.9", "cont-1"⟩

/-- Command line for the C2 witness: only `--consul` supplied. -/
def cliW : Cli :=
  ⟨none, some "cli-consul:1", none, none, none, none, none, false, false,
    none, none, none, false⟩

/-- C2 (witness): a run where the CLI wins for `consul`, the environment
wins for `config`, `instance_id` and `rest_port`, and the built-in
(host-lookup) default wins for `interface`. -/
theorem parse_args_precedence_witness :
    ∃ a, parse_args envW hostW cliW = some a ∧
      a.consul = "cli-consul:1" ∧ a.config = "/etc/voltha.yml" ∧
      a.interface = "eth3" ∧ a.instance_id = "env-id" ∧
      a.rest_port = .int 7000 := by
  rcases hp : parse_args envW hostW cliW with _ | a
  · exact absurd hp (by decide)
  · obtain ⟨c1, _, _, _, f2, _, _, _, i3, _, _, _, _, _, _, _, _, _, _,
      id3, _, _, r2, _⟩ := parse_args_precedence envW hostW cliW a hp
    exact ⟨a, rfl, c1 _ rfl, f2 rfl _ rfl, i3 rfl rfl, id3 rfl rfl _ rfl,
      r2 rfl "7000" 7000 rfl (by decide)⟩

/-- Environment for the C10 theorems: only `REST_PORT=7000` set. -/
def envR : Env := ⟨none, none, none, none, none, none, none, none,
  some "7000"⟩

/-- Host identity for the C10 theorems. -/
def hostR : HostInfo := ⟨"eth0", "10.0.0.1", "cont-2"⟩

/-- Command line for the C10 theorems: nothing supplied. -/
def cliR : Cli := ⟨none, none, none, none, none, none, none, false, false,
  none, none, none, false⟩

/-- C10 (counterexample): with `REST_PORT=7000` in the environment and no
`--rest-port` flag, the resolved `rest_port` is the *integer* 7000, not the
raw string `"7000"`: argparse applies the `type=int` conversion to a string
default, so the conversion is not limited to command-line values. -/
theorem rest_port_env_int_cex :
    (parse_args envR hostR cliR).map Args.rest_port =
      some (.int 7000) ∧
    (parse_args envR hostR cliR).map Args.rest_port ≠
      some (.str "7000") := by
  refine ⟨rfl, by decide⟩

/-- C10 (amended): a `rest_port` supplied only through the `REST_PORT`
environment variable is converted to an integer by argparse's `type=int`
(string defaults are type-converted just like command-line values); only
the built-in default 8880 bypasses the conversion, being already an
integer. -/
theorem rest_port_env_value_converted (env : Env) (host : HostInfo)
    (cli : Cli) (s : String) (n : Int) (h1 : cli.rest_port = none)
    (h2 : env.rest_port = some s) (h3 : pyInt? s = some n) :
    (parse_args env host cli).map Args.rest_port = some (.int n) := by
  unfold parse_args
  simp [argparse_typed_int, defs_rest_port, h1, h2, h3]

/-- C10 (witness): the amended theorem at `REST_PORT=7000`. -/
theorem rest_port_env_value_converted_witness :
    (parse_args envR hostR cliR).map Args.rest_port =
      some (.int 7000) :=
  rest_port_env_value_converted envR hostR cliR "7000" 7000 rfl rfl rfl

end Voltha
